import Mathlib

/-!
Shallow embedding of the OpenAI-compatible generator adapter
(`garak/generators/openai.py`): endpoint routing, client lifecycle,
request assembly, fault handling and the backoff retry controller.
-/

namespace OpenAIAdapter

/-- The two request shapes: `client.chat.completions` vs `client.completions`. -/
inductive EndpointVariant where
  | chat
  | completion
  deriving DecidableEq, Repr

/-- Errors raised during `_load_client` (both surface as Python `ValueError`):
the empty-model-name discovery error, and the unsupported-model error which
names the offending model in its message. -/
inductive RouteError where
  | configError
  | unsupported (name : String)
  deriving DecidableEq, Repr

/-- The `chat_models` tuple from `openai.py`. -/
def chat_models : List String :=
  [ "gpt-4",
    "gpt-4-turbo",
    "gpt-4o",
    "gpt-4o-mini",
    "gpt-4-turbo-preview",
    "gpt-3.5-turbo",
    "gpt-4-32k",
    "gpt-4-0125-preview",
    "gpt-4-1106-preview",
    "gpt-4-vision-preview",
    "gpt-4-1106-vision-preview",
    "gpt-4-0613",
    "gpt-4-32k",
    "gpt-4-32k-0613",
    "gpt-3.5-turbo-0125",
    "gpt-3.5-turbo-1106",
    "gpt-3.5-turbo-16k",
    "gpt-3.5-turbo-0613",
    "gpt-3.5-turbo-16k-0613" ]

/-- The `completion_models` tuple from `openai.py` (commented-out entries omitted,
as in the source). -/
def completion_models : List String :=
  [ "gpt-3.5-turbo-instruct",
    "davinci-002",
    "babbage-002",
    "davinci-instruct-beta" ]

/-- Python `s.split(sep)` for a one-character separator: split at every
occurrence, keeping empty pieces, so `"".split("-") = [""]` and
`"-".split("-") = ["", ""]`. -/
def splitOnChar (sep : Char) : List Char → List (List Char)
  | [] => [[]]
  | c :: cs =>
    let r := splitOnChar sep cs
    if c = sep then [] :: r
    else
      match r with
      | [] => [[c]]
      | p :: ps => (c :: p) :: ps

/-- `"-".join(name.split("-")[:-1])`: drop the part after the last hyphen. -/
def stripLastHyphenPart (name : String) : String :=
  String.mk (List.intercalate ['-'] ((splitOnChar '-' name.data).dropLast))

example : stripLastHyphenPart "gpt-4-0125" = "gpt-4" := by decide
example : stripLastHyphenPart "gpt-4" = "gpt" := by decide
example : stripLastHyphenPart "gpt4" = "" := by decide
example : stripLastHyphenPart "" = "" := by decide

/-- `re.match(r"^.+-[01][0-9][0-3][0-9]$", name)`: the whole name is a nonempty
prefix (of non-newline characters, since `.` does not match a newline), a
hyphen, and four digits shaped like an MMDD suffix. Since the four digit
classes exclude the hyphen, the only possible decomposition puts the hyphen
five characters from the end, so the match is decided on the reversed
character list. -/
def datedSuffixMatch (name : String) : Bool :=
  match name.toList.reverse with
  | d4 :: d3 :: d2 :: d1 :: '-' :: rest =>
      decide (1 ≤ rest.length) && rest.all (fun c => c != '\n') &&
      (d1 == '0' || d1 == '1') && d2.isDigit &&
      ('0' ≤ d3 && d3 ≤ '3') && d4.isDigit
  | _ => false

example : datedSuffixMatch "gpt-4-0613" = true := by decide
example : datedSuffixMatch "gpt-4-0125" = true := by decide
example : datedSuffixMatch "gpt-4" = false := by decide
example : datedSuffixMatch "gpt-4-2025" = false := by decide
example : datedSuffixMatch "gpt-4-0645" = false := by decide
example : datedSuffixMatch "-0613" = false := by decide

/-- The routing decision of `OpenAIGenerator._load_client`: the empty-name
discovery error, then exact completion-set membership, then exact chat-set
membership, then the dated-suffix heuristic, else the unsupported-model
error. -/
def loadClientRoute (name : String) : Except RouteError EndpointVariant :=
  if name = "" then
    .error .configError
  else if name ∈ completion_models then
    .ok .completion
  else if name ∈ chat_models then
    .ok .chat
  else if stripLastHyphenPart name ∈ chat_models ∧ datedSuffixMatch name then
    .ok .completion
  else
    .error (.unsupported name)

example : loadClientRoute "gpt-4" = .ok .chat := by rfl
example : loadClientRoute "davinci-002" = .ok .completion := by rfl
example : loadClientRoute "gpt-4-0125" = .ok .completion := by rfl
example : loadClientRoute "gpt-4-0613" = .ok .chat := by rfl
example : loadClientRoute "llama-3" = .error (.unsupported "llama-3") := by rfl
example : loadClientRoute "" = .error .configError := by rfl

/-- A JSON-serializable request value, covering the value shapes that appear
in `create_args`. -/
inductive Value where
  | vStr (s : String)
  | vRat (q : ℚ)
  | vInt (n : Int)
  | vStrList (l : List String)
  | vMessages (l : List (String × String))
  deriving DecidableEq, Repr

/-- The generator configuration fields read by `_call_model`, with the
`DEFAULT_PARAMS` defaults of `OpenAICompatible` (an unconfigured field is
`none`, mirroring a Python `None`). `suppressed_params` is the set of request
keys to omit; `retry_json` enables retry on a malformed (JSON-undecodable)
response. -/
structure OpenAIConfig where
  name : String
  temperature : Option ℚ := some (7 / 10)
  max_tokens : Option Int := some 150
  top_p : Option ℚ := some 1
  frequency_penalty : Option ℚ := some 0
  presence_penalty : Option ℚ := some 0
  stop : Option (List String) := some ["#", ";"]
  seed : Option Int := none
  suppressed_params : List String := []
  retry_json : Bool := true
  deriving DecidableEq, Repr

/-- The first `create_args` dict of `_call_model`, in insertion order, before
filtering; a `none` value is a Python `None`. -/
def createArgsRaw (cfg : OpenAIConfig) (generations_this_call : Int) :
    List (String × Option Value) :=
  [ ("model", some (.vStr cfg.name)),
    ("temperature", cfg.temperature.map .vRat),
    ("max_tokens", cfg.max_tokens.map .vInt),
    ("n", some (.vInt generations_this_call)),
    ("top_p", cfg.top_p.map .vRat),
    ("frequency_penalty", cfg.frequency_penalty.map .vRat),
    ("presence_penalty", cfg.presence_penalty.map .vRat),
    ("stop", cfg.stop.map .vStrList),
    ("seed", cfg.seed.map .vInt) ]

/-- The dict comprehension of `_call_model`: keep `(k, v)` iff `v is not None`
and `k not in self.suppressed_params`. -/
def filterParams (suppressed : List String) (args : List (String × Option Value)) :
    List (String × Value) :=
  args.filterMap fun kv =>
    match kv.2 with
    | none => none
    | some v => if kv.1 ∈ suppressed then none else some (kv.1, v)

/-- A prompt as `_call_model` receives it: a string, a list of role/content
message dicts, or a value of any other Python type. -/
inductive Prompt where
  | str (s : String)
  | msgList (msgs : List (String × String))
  | other
  deriving DecidableEq, Repr

/-- The Python exceptions that matter to `_call_model` and to its
`backoff.on_exception` decorator. -/
inductive Exc where
  | rateLimit
  | internalServer
  | apiTimeout
  | apiConnection
  | backoffTrigger
  | badRequest
  | jsonDecode
  | attributeError
  deriving DecidableEq, Repr

/-- Outcome of one `self.generator.create(**create_args)` network call:
either a response whose choices carry the listed texts / message contents,
or a raised exception. -/
inductive CallOutcome where
  | success (choices : List (Option String))
  | raise (e : Exc)
  deriving DecidableEq, Repr

/-- What one `_call_model` body observes and returns: the argument dict
passed to `create` (`none` when the prompt-shape check failed and no network
call was made) and the returned list of optional strings. -/
structure CallTrace where
  request : Option (List (String × Value))
  result : List (Option String)
  deriving DecidableEq, Repr

/-- The `try: response = self.generator.create(**create_args) ...` block plus
response extraction: `BadRequestError` is absorbed into `[None]`;
`JSONDecodeError` is re-raised as `GarakBackoffTrigger` when `retry_json` is
set, else re-raised as itself; other exceptions propagate; on success the
choices are extracted in provider order. -/
def doCreate (retry_json : Bool) (args : List (String × Value))
    (oracle : CallOutcome) : Except Exc CallTrace :=
  match oracle with
  | .success choices => .ok ⟨some args, choices⟩
  | .raise .badRequest => .ok ⟨some args, [none]⟩
  | .raise .jsonDecode =>
      if retry_json then .error .backoffTrigger else .error .jsonDecode
  | .raise e => .error e

/-- The body of `_call_model` for a generator already bound to an endpoint
variant: assemble and filter `create_args`, check the prompt shape against
the variant (returning an empty result on mismatch, with no network call),
attach the prompt under `prompt` (completion) or `messages` (chat, wrapping a
bare string as a single user message), then perform the call. -/
def callModelLoaded (cfg : OpenAIConfig) (v : EndpointVariant) (prompt : Prompt)
    (generations_this_call : Int) (oracle : CallOutcome) : Except Exc CallTrace :=
  let base := filterParams cfg.suppressed_params (createArgsRaw cfg generations_this_call)
  match v with
  | .completion =>
    match prompt with
    | .str p => doCreate cfg.retry_json (base ++ [("prompt", .vStr p)]) oracle
    | _ => .ok ⟨none, []⟩
  | .chat =>
    match prompt with
    | .str p =>
        doCreate cfg.retry_json (base ++ [("messages", .vMessages [("user", p)])]) oracle
    | .msgList msgs =>
        doCreate cfg.retry_json (base ++ [("messages", .vMessages msgs)]) oracle
    | .other => .ok ⟨none, []⟩

/-- The mutable per-instance state of an `OpenAIGenerator`: its configuration,
the opaque `self.client` handle (`none` is Python `None`), and
`self.generator`, the endpoint binding chosen by `_load_client`. -/
structure GenState where
  cfg : OpenAIConfig
  client : Option Unit
  generator : Option EndpointVariant
  deriving DecidableEq, Repr

/-- `OpenAIGenerator._clear_client`: `self.generator = None; self.client = None`. -/
def clearClient (s : GenState) : GenState :=
  { s with client := none, generator := none }

/-- `OpenAIGenerator._load_client`: construct the client handle and bind
`self.generator` according to `loadClientRoute`; on a routing error the
`ValueError` propagates. -/
def loadClient (s : GenState) : Except RouteError GenState :=
  match loadClientRoute s.cfg.name with
  | .ok v => .ok { s with client := some (), generator := some v }
  | .error e => .error e

/-- `OpenAICompatible.__getstate__`: clear the client, then hand the resulting
attribute dict to the pickler. -/
def getstate (s : GenState) : GenState :=
  clearClient s

/-- `OpenAICompatible.__setstate__`: restore the attribute dict, then
immediately call `self._load_client()`. -/
def setstate (d : GenState) : Except RouteError GenState :=
  loadClient d

/-- One full `_call_model` invocation, including the lazy
`if self.client is None: self._load_client()` reload. With a present client
but unbound `self.generator` both identity comparisons fail, no prompt key is
attached, and `self.generator.create` raises `AttributeError`. -/
def callModel (s : GenState) (prompt : Prompt) (generations_this_call : Int)
    (oracle : CallOutcome) : Except RouteError (Except Exc CallTrace) :=
  match (if s.client = none then loadClient s else .ok s) with
  | .error e => .error e
  | .ok s1 =>
    match s1.generator with
    | some v => .ok (callModelLoaded s1.cfg v prompt generations_this_call oracle)
    | none => .ok (.error .attributeError)

/-- The exception tuple of the `backoff.on_exception` decorator on
`_call_model`: `RateLimitError`, `InternalServerError`, `APITimeoutError`,
`APIConnectionError`, `GarakBackoffTrigger` are retried; everything else
propagates. -/
def retryable : Exc → Bool
  | .rateLimit => true
  | .internalServer => true
  | .apiTimeout => true
  | .apiConnection => true
  | .backoffTrigger => true
  | .badRequest => false
  | .jsonDecode => false
  | .attributeError => false

/-- The wait generated before the j-th retry (j counted from 1):
`backoff.fibo` yields 1, 1, 2, 3, 5, ... — `Nat.fib j` — and `max_value=70`
caps every yielded value at 70. -/
def fiboWait (j : ℕ) : ℕ :=
  min (Nat.fib j) 70

/-- Modelled from the spec: the retry loop of the third-party
`backoff.on_exception` decorator (its implementation is not part of this
repository). Attempt `i` runs `f i`; a raised exception in the retried tuple
causes a wait of `fiboWait (i + 1)` followed by the next attempt, any other
raised exception propagates at once, and a normal return ends the loop. The
real loop has no attempt bound, so it is run here with explicit fuel;
`none` means the fuel ran out before the loop ended. -/
def backoffRun (f : ℕ → Except Exc CallTrace) :
    ℕ → ℕ → Option (List ℕ × Except Exc CallTrace)
  | 0, _ => none
  | fuel + 1, i =>
    match f i with
    | .ok a => some ([], .ok a)
    | .error e =>
      if retryable e then
        match backoffRun f fuel (i + 1) with
        | some (ws, r) => some (fiboWait (i + 1) :: ws, r)
        | none => none
      else
        some ([], .error e)

/-- The prompt-shape checks of `_call_model`: a completion generator accepts
only a string prompt, a chat generator accepts a string or a list of message
dicts. -/
def validShape : EndpointVariant → Prompt → Bool
  | .completion, .str _ => true
  | .completion, .msgList _ => false
  | .completion, .other => false
  | .chat, .str _ => true
  | .chat, .msgList _ => true
  | .chat, .other => false

/-- A concrete chat-model generator state with its client attached, used as a
concrete instance below. -/
def sampleChatState : GenState :=
  { cfg := { name := "gpt-4" }, client := some (), generator := some .chat }

/-- C1: for every model name handed to `_load_client` (the empty name takes
the separate model-list discovery path), the endpoint variant is decided in
order: exact membership in `completion_models` gives Completion; otherwise
exact membership in `chat_models` gives Chat; otherwise, if stripping the
trailing hyphenated suffix lands in `chat_models` and the name matches the
4-digit month/day-like suffix pattern, Completion; otherwise a `ValueError`
naming the offending model. -/
theorem C1_router_decision_order (name : String) (hne : name ≠ "") :
    (name ∈ completion_models → loadClientRoute name = .ok .completion) ∧
    (name ∉ completion_models → name ∈ chat_models → loadClientRoute name = .ok .chat) ∧
    (name ∉ completion_models → name ∉ chat_models →
      stripLastHyphenPart name ∈ chat_models → datedSuffixMatch name = true →
      loadClientRoute name = .ok .completion) ∧
    (name ∉ completion_models → name ∉ chat_models →
      ¬(stripLastHyphenPart name ∈ chat_models ∧ datedSuffixMatch name = true) →
      loadClientRoute name = .error (.unsupported name)) := by
  refine ⟨?_, ?_, ?_, ?_⟩ <;> intros <;> simp_all [loadClientRoute]

/-- Witness for C1 at the concrete name "gpt-4-0125": not in either exact
set, but its stripped base "gpt-4" is a chat model and "0125" matches the
dated-suffix pattern, so the variant is Completion. -/
theorem C1_router_decision_order_witness :
    loadClientRoute "gpt-4-0125" = .ok .completion :=
  (C1_router_decision_order "gpt-4-0125" (by decide)).2.2.1
    (by decide) (by decide) (by decide) (by rfl)

/-- C2 counterexample: "gpt-4-0613" is an exact member of `chat_models`, so
the exact chat-set branch fires before the dated-suffix heuristic and the
resolved variant is Chat, not Completion as the claim states. -/
theorem C2_gpt4_0613_counterexample :
    loadClientRoute "gpt-4-0613" ≠ Except.ok EndpointVariant.completion := by
  have h : loadClientRoute "gpt-4-0613" = .ok .chat := by rfl
  rw [h]
  simp

/-- C2 amended: for the model name "gpt-4-0613", construction succeeds and
the resolved endpoint variant is Chat, because exact membership in the
chat-model set takes precedence over the dated-suffix heuristic. -/
theorem C2_gpt4_0613_amended :
    loadClientRoute "gpt-4-0613" = Except.ok EndpointVariant.chat := by
  rfl

/-- C3 counterexample: serializing `sampleChatState` (which clears the
client) and then deserializing it yields a state whose client handle is
present, because `__setstate__` eagerly calls `_load_client()`; the claim
says the handle is absent until the next generate call. -/
theorem C3_setstate_counterexample :
    setstate (getstate sampleChatState) = Except.ok sampleChatState ∧
    sampleChatState.client ≠ none := by
  constructor
  · rfl
  · simp [sampleChatState]

/-- C3 amended: the client handle is set absent before serialization
(`__getstate__` clears it), but immediately after deserialization it is
present again: `__setstate__` eagerly recreates the handle and the endpoint
binding rather than deferring creation to the next generate call. -/
theorem C3_lifecycle_amended (s s1 : GenState)
    (h : setstate (getstate s) = Except.ok s1) :
    (getstate s).client = none ∧ s1.client = some () ∧ s1.generator ≠ none := by
  refine ⟨rfl, ?_⟩
  unfold setstate loadClient at h
  cases hr : loadClientRoute (getstate s).cfg.name with
  | ok v =>
    rw [hr] at h
    injection h with h1
    subst h1
    simp
  | error e =>
    rw [hr] at h
    cases h

/-- Witness for C3 amended at `sampleChatState`, whose restore round-trip
succeeds. -/
theorem C3_lifecycle_amended_witness :
    (getstate sampleChatState).client = none ∧
    sampleChatState.client = some () ∧ sampleChatState.generator ≠ none :=
  C3_lifecycle_amended sampleChatState sampleChatState (by rfl)

/-- C4: whenever the network call raises `BadRequestError`, `_call_model`
returns normally with the single-element result `[None]` for every requested
generation count ≥ 1, and the backoff controller performs zero retries and
propagates nothing: it returns that value at once. -/
theorem C4_bad_request_single_null (cfg : OpenAIConfig) (v : EndpointVariant)
    (prompt : Prompt) (n : Int) (hn : 1 ≤ n) (hshape : validShape v prompt = true) :
    (callModelLoaded cfg v prompt n (.raise .badRequest)).map CallTrace.result =
      Except.ok [none] ∧
    backoffRun (fun _ => callModelLoaded cfg v prompt n (.raise .badRequest)) 1 0 =
      some ([], callModelLoaded cfg v prompt n (.raise .badRequest)) := by
  cases v <;> cases prompt <;> simp [validShape] at hshape <;> exact ⟨rfl, rfl⟩

/-- Witness for C4 with a completion model, a string prompt and generation
count 3. -/
theorem C4_bad_request_single_null_witness :
    (callModelLoaded { name := "gpt-3.5-turbo-instruct" } .completion (.str "hi") 3
        (.raise .badRequest)).map CallTrace.result = Except.ok [none] ∧
    backoffRun
        (fun _ => callModelLoaded { name := "gpt-3.5-turbo-instruct" } .completion
          (.str "hi") 3 (.raise .badRequest)) 1 0 =
      some ([], callModelLoaded { name := "gpt-3.5-turbo-instruct" } .completion
        (.str "hi") 3 (.raise .badRequest)) :=
  C4_bad_request_single_null { name := "gpt-3.5-turbo-instruct" } .completion
    (.str "hi") 3 (by decide) (by rfl)

/-- C5: every name in `completion_models` routes to the Completion variant,
and a completion-variant `_call_model` given a non-string prompt returns the
empty result without raising, whatever the network would have done. -/
theorem C5_completion_nonstring_prompt_empty (name : String)
    (hname : name ∈ completion_models) (cfg : OpenAIConfig) (hcfg : cfg.name = name)
    (prompt : Prompt) (hp : ∀ s, prompt ≠ .str s) (n : Int) (oracle : CallOutcome) :
    loadClientRoute name = .ok .completion ∧
    callModelLoaded cfg .completion prompt n oracle = .ok ⟨none, []⟩ := by
  constructor
  · have hne : name ≠ "" := by
      rintro rfl
      revert hname
      decide
    simp [loadClientRoute, hne, hname]
  · cases prompt with
    | str s => exact absurd rfl (hp s)
    | msgList msgs => rfl
    | other => rfl

/-- Witness for C5 at "babbage-002" with a message-list (non-string) prompt. -/
theorem C5_completion_nonstring_prompt_empty_witness :
    loadClientRoute "babbage-002" = .ok .completion ∧
    callModelLoaded { name := "babbage-002" } .completion
        (.msgList [("user", "hi")]) 1 (.success [some "out"]) = .ok ⟨none, []⟩ :=
  C5_completion_nonstring_prompt_empty "babbage-002" (by decide)
    { name := "babbage-002" } rfl (.msgList [("user", "hi")])
    (fun s h => Prompt.noConfusion h) 1 (.success [some "out"])

/-- C8: a `JSONDecodeError` from the network call is re-raised as the
retried `GarakBackoffTrigger` exactly when `retry_json` is set; when the
flag is unset the decode error itself is re-raised, it is not in the
retried tuple, and the controller propagates it immediately with zero
retries for any fuel. -/
theorem C8_decode_error_retry_iff_flag (cfg : OpenAIConfig) (v : EndpointVariant)
    (prompt : Prompt) (n : Int) (hshape : validShape v prompt = true) :
    callModelLoaded cfg v prompt n (.raise .jsonDecode) =
      .error (if cfg.retry_json then .backoffTrigger else .jsonDecode) ∧
    retryable (if cfg.retry_json then Exc.backoffTrigger else Exc.jsonDecode) =
      cfg.retry_json ∧
    (cfg.retry_json = false → ∀ fuel : ℕ,
      backoffRun (fun _ => callModelLoaded cfg v prompt n (.raise .jsonDecode))
          (fuel + 1) 0 =
        some ([], .error .jsonDecode)) := by
  refine ⟨?_, ?_, ?_⟩
  · cases v <;> cases prompt <;> simp [validShape] at hshape <;>
      cases hr : cfg.retry_json <;> simp [callModelLoaded, doCreate, hr]
  · cases hr : cfg.retry_json <;> rfl
  · intro hflag fuel
    cases v <;> cases prompt <;> simp [validShape] at hshape <;>
      simp [backoffRun, callModelLoaded, doCreate, hflag, retryable]

/-- Witness for C8 with the retry flag unset on a chat model with a string
prompt: the decode error propagates with no retry. -/
theorem C8_decode_error_retry_iff_flag_witness :
    callModelLoaded { name := "gpt-4", retry_json := false } .chat (.str "hi") 1
        (.raise .jsonDecode) =
      .error (if ({ name := "gpt-4", retry_json := false } : OpenAIConfig).retry_json
        then .backoffTrigger else .jsonDecode) ∧
    retryable (if ({ name := "gpt-4", retry_json := false } : OpenAIConfig).retry_json
        then Exc.backoffTrigger else Exc.jsonDecode) =
      ({ name := "gpt-4", retry_json := false } : OpenAIConfig).retry_json ∧
    (({ name := "gpt-4", retry_json := false } : OpenAIConfig).retry_json = false →
      ∀ fuel : ℕ,
      backoffRun
          (fun _ => callModelLoaded { name := "gpt-4", retry_json := false } .chat
            (.str "hi") 1 (.raise .jsonDecode)) (fuel + 1) 0 =
        some ([], .error .jsonDecode)) :=
  C8_decode_error_retry_iff_flag { name := "gpt-4", retry_json := false } .chat
    (.str "hi") 1 (by rfl)

/-- Head step of the `create_args` filter: a `None` value is skipped, a
suppressed key is skipped, anything else is kept. -/
theorem filterParams_cons_eq (sup : List String) (key : String) (v : Option Value)
    (t : List (String × Option Value)) :
    filterParams sup ((key, v) :: t) =
      (match v with
       | none => filterParams sup t
       | some w =>
           if key ∈ sup then filterParams sup t else (key, w) :: filterParams sup t) := by
  cases v with
  | none => simp [filterParams, List.filterMap_cons]
  | some w => by_cases h : key ∈ sup <;> simp [filterParams, List.filterMap_cons, h]

/-- Suppressing one more key filters exactly the pairs with that key out of
the otherwise-identical assembled parameter list. -/
theorem filterParams_cons_suppressed (k : String) (sup : List String)
    (args : List (String × Option Value)) :
    filterParams (k :: sup) args =
      (filterParams sup args).filter (fun kv => kv.1 != k) := by
  induction args with
  | nil => rfl
  | cons a t ih =>
    obtain ⟨key, v⟩ := a
    cases v with
    | none => simpa [filterParams_cons_eq] using ih
    | some w =>
      simp only [filterParams_cons_eq]
      by_cases hk : key = k
      · subst hk
        by_cases hs : key ∈ sup <;>
          simp [hs, List.mem_cons, List.filter_cons, bne_iff_ne, ih]
      · by_cases hs : key ∈ sup <;>
          simp [hs, hk, List.mem_cons, List.filter_cons, bne_iff_ne, ih]

/-- C6: for each of the six documented sampling keys, assembling the request
with that key added to `suppressed_params` yields exactly the parameter list
assembled without that suppression with the pairs carrying that key removed;
every other key-value pair is unchanged. -/
theorem C6_suppressed_key_removed_only (k : String)
    (hk : k ∈ ["temperature", "top_p", "frequency_penalty", "presence_penalty",
      "seed", "stop"])
    (cfg : OpenAIConfig) (n : Int) :
    filterParams (k :: cfg.suppressed_params) (createArgsRaw cfg n) =
      (filterParams cfg.suppressed_params (createArgsRaw cfg n)).filter
        (fun kv => kv.1 != k) :=
  filterParams_cons_suppressed k cfg.suppressed_params (createArgsRaw cfg n)

/-- Witness for C6 at key "seed" on a concrete default configuration. -/
theorem C6_suppressed_key_removed_only_witness :
    filterParams ("seed" :: ({ name := "gpt-4" } : OpenAIConfig).suppressed_params)
        (createArgsRaw { name := "gpt-4" } 1) =
      (filterParams ({ name := "gpt-4" } : OpenAIConfig).suppressed_params
          (createArgsRaw { name := "gpt-4" } 1)).filter (fun kv => kv.1 != "seed") :=
  C6_suppressed_key_removed_only "seed" (by decide) { name := "gpt-4" } 1

/-- Membership in the filtered parameter list means the pair was assembled
with a present value and its key is not suppressed. -/
theorem mem_filterParams_iff (sup : List String) (args : List (String × Option Value))
    (k : String) (v : Value) :
    (k, v) ∈ filterParams sup args ↔ (k, some v) ∈ args ∧ k ∉ sup := by
  induction args with
  | nil => simp [filterParams]
  | cons a t ih =>
    obtain ⟨key, w⟩ := a
    cases w with
    | none => simp [filterParams, List.filterMap_cons] at ih ⊢; tauto
    | some u =>
      by_cases hs : key ∈ sup <;>
        simp [filterParams, List.filterMap_cons, hs, Prod.ext_iff] at ih ⊢ <;>
        aesop

/-- In a list of pairs with pairwise-distinct keys, `lookup` finds the value
of any pair the list contains. -/
theorem lookup_eq_of_mem_of_nodup_keys (args : List (String × Option Value))
    (hnd : (args.map Prod.fst).Nodup) (k : String) (w : Option Value)
    (hmem : (k, w) ∈ args) :
    args.lookup k = some w := by
  induction args with
  | nil => cases hmem
  | cons a t ih =>
    obtain ⟨key, w0⟩ := a
    simp only [List.map_cons, List.nodup_cons] at hnd
    rcases List.mem_cons.mp hmem with heq | htail
    · cases heq
      simp [List.lookup]
    · have hne : k ≠ key := by
        rintro rfl
        exact hnd.1 (List.mem_map.mpr ⟨(k, w), htail, rfl⟩)
      have hbeq : (k == key) = false := beq_eq_false_iff_ne.mpr hne
      simp [List.lookup, hbeq]
      exact ih hnd.2 htail

/-- Keys of the raw `create_args` assembly, in insertion order. -/
theorem createArgsRaw_keys (cfg : OpenAIConfig) (n : Int) :
    (createArgsRaw cfg n).map Prod.fst =
      ["model", "temperature", "max_tokens", "n", "top_p", "frequency_penalty",
        "presence_penalty", "stop", "seed"] := by
  rfl

/-- C10: the absent-value / suppressed-key filter applies to every assembled
key, not only the six sampling keys: `model`, `max_tokens` and `n` are also
dropped from the outgoing request whenever their assembled value is a Python
`None` or their key is in `suppressed_params`. -/
theorem C10_filter_covers_all_keys (cfg : OpenAIConfig) (n : Int) (k : String)
    (hk : k ∈ ["model", "max_tokens", "n"])
    (hdrop : (createArgsRaw cfg n).lookup k = some none ∨ k ∈ cfg.suppressed_params) :
    ∀ v : Value, (k, v) ∉ filterParams cfg.suppressed_params (createArgsRaw cfg n) := by
  intro v hmemf
  rw [mem_filterParams_iff] at hmemf
  obtain ⟨hmem, hns⟩ := hmemf
  rcases hdrop with hval | hsup
  · have hlk : (createArgsRaw cfg n).lookup k = some (some v) :=
      lookup_eq_of_mem_of_nodup_keys _ (by rw [createArgsRaw_keys]; decide) _ _ hmem
    rw [hlk] at hval
    simp at hval
  · exact hns hsup

/-- Witness for C10: with "model" suppressed, no pair keyed "model" survives
the filter. -/
theorem C10_filter_covers_all_keys_witness :
    ("model", Value.vStr "gpt-4") ∉ filterParams
        ({ name := "gpt-4", suppressed_params := ["model"] } : OpenAIConfig).suppressed_params
        (createArgsRaw { name := "gpt-4", suppressed_params := ["model"] } 1) :=
  C10_filter_covers_all_keys { name := "gpt-4", suppressed_params := ["model"] } 1
    "model" (by decide) (Or.inr (by decide)) (Value.vStr "gpt-4")

/-- Running the retry loop from attempt `i` against `N` retryable faults
followed by a success returns the success with the capped Fibonacci wait
schedule starting at wait index `i + 1`. -/
theorem backoffRun_succ (f : ℕ → Except Exc CallTrace) (fuel i : ℕ) :
    backoffRun f (fuel + 1) i =
      match f i with
      | .ok a => some ([], .ok a)
      | .error e =>
        if retryable e then
          match backoffRun f fuel (i + 1) with
          | some (ws, r) => some (fiboWait (i + 1) :: ws, r)
          | none => none
        else
          some ([], .error e) := by
  rfl

theorem backoffRun_schedule (N : ℕ) (f : ℕ → Except Exc CallTrace) (r : CallTrace)
    (i : ℕ) (hf : ∀ j, j < N → ∃ e, f (i + j) = .error e ∧ retryable e = true)
    (hs : f (i + N) = .ok r) :
    backoffRun f (N + 1) i =
      some ((List.range N).map (fun j => fiboWait (i + 1 + j)), .ok r) := by
  induction N generalizing i with
  | zero =>
    have h0 : f i = .ok r := by simpa using hs
    simp [backoffRun, h0]
  | succ N ih =>
    obtain ⟨e, he, hret⟩ := hf 0 (Nat.succ_pos N)
    rw [Nat.add_zero] at he
    have hnext : backoffRun f (N + 1) (i + 1) =
        some ((List.range N).map (fun j => fiboWait (i + 1 + 1 + j)), .ok r) := by
      refine ih (i + 1) (fun j hj => ?_) ?_
      · obtain ⟨e2, he2, hret2⟩ := hf (j + 1) (by omega)
        exact ⟨e2, by rwa [show i + (j + 1) = i + 1 + j by omega] at he2, hret2⟩
      · rwa [show i + 1 + N = i + (N + 1) by omega]
    have hfun : (fun j => fiboWait (i + 1 + j)) ∘ Nat.succ =
        (fun j => fiboWait (i + 1 + 1 + j)) := by
      funext j
      simp only [Function.comp_apply]
      congr 1
      omega
    rw [backoffRun_succ, he]
    simp only [hret, if_true, hnext]
    rw [List.range_succ_eq_map, List.map_cons, List.map_map, hfun, Nat.add_zero]

/-- C7: for every N, a run of N consecutive rate-limit faults followed by a
success makes the controller retry exactly N times, with waits drawn from
the Fibonacci sequence capped at the configured maximum of 70,
non-decreasing, and then return the successful result. -/
theorem C7_rate_limit_retry_schedule (N : ℕ) (f : ℕ → Except Exc CallTrace)
    (r : CallTrace) (hf : ∀ j, j < N → f j = .error .rateLimit) (hs : f N = .ok r) :
    backoffRun f (N + 1) 0 =
      some ((List.range N).map (fun j => fiboWait (j + 1)), .ok r) ∧
    ((List.range N).map (fun j => fiboWait (j + 1))).length = N ∧
    List.Pairwise (· ≤ ·) ((List.range N).map (fun j => fiboWait (j + 1))) ∧
    ∀ w ∈ (List.range N).map (fun j => fiboWait (j + 1)), w ≤ 70 := by
  refine ⟨?_, by simp, ?_, ?_⟩
  · have h := backoffRun_schedule N f r 0
      (fun j hj => ⟨.rateLimit, by simpa using hf j hj, rfl⟩) (by simpa using hs)
    have hfun : (fun j => fiboWait (0 + 1 + j)) = (fun j => fiboWait (j + 1)) := by
      funext j
      congr 1
      omega
    rwa [hfun] at h
  · refine List.Pairwise.map _ (fun a b hab => ?_) (List.pairwise_lt_range N)
    exact min_le_min (Nat.fib_mono (by omega)) le_rfl
  · intro w hw
    simp only [List.mem_map] at hw
    obtain ⟨j, _, rfl⟩ := hw
    exact min_le_right _ _

/-- Witness for C7 with N = 2 rate-limit faults before success: two retries
with waits fib 1 = 1 and fib 2 = 1, then the successful result. -/
theorem C7_rate_limit_retry_schedule_witness :
    backoffRun
        (fun i => if i < 2 then .error .rateLimit else .ok ⟨none, [some "out"]⟩)
        (2 + 1) 0 =
      some ((List.range 2).map (fun j => fiboWait (j + 1)),
        .ok ⟨none, [some "out"]⟩) :=
  (C7_rate_limit_retry_schedule 2
    (fun i => if i < 2 then .error .rateLimit else .ok ⟨none, [some "out"]⟩)
    ⟨none, [some "out"]⟩ (by intro j hj; interval_cases j <;> rfl) (by rfl)).1

/-- C9: clearing the client (`_clear_client`, as `release()`) and then
calling `_call_model` — which transparently reloads the client — produces
exactly the same behavior, outgoing parameter set included, as calling
`_call_model` on the still-loaded instance. -/
theorem C9_release_acquire_same_params (s0 s : GenState)
    (h : loadClient s0 = Except.ok s) (prompt : Prompt) (n : Int)
    (oracle : CallOutcome) :
    callModel (clearClient s) prompt n oracle = callModel s prompt n oracle := by
  unfold loadClient at h
  cases hr : loadClientRoute s0.cfg.name with
  | ok v =>
    rw [hr] at h
    injection h with h1
    subst h1
    simp [callModel, clearClient, loadClient, hr]
  | error e =>
    rw [hr] at h
    cases h

/-- Witness for C9 on a freshly loaded "gpt-4" generator with a string
prompt. -/
theorem C9_release_acquire_same_params_witness :
    callModel (clearClient sampleChatState) (.str "hi") 1 (.success [some "out"]) =
      callModel sampleChatState (.str "hi") 1 (.success [some "out"]) :=
  C9_release_acquire_same_params
    { cfg := { name := "gpt-4" }, client := none, generator := none }
    sampleChatState (by rfl) (.str "hi") 1 (.success [some "out"])

end OpenAIAdapter
